import Mathlib

/-!
Shallow embedding of the ShopHub storefront data-access layer
(src/api/orders.ts, src/api/cart.ts, and the schema in
supabase/migrations) and proofs about it.

Modelling conventions:
* The remote store (supabase) is a record of tables (`Store`); every
  store round-trip in the source corresponds to exactly one step that
  consumes the head of a failure schedule (`World.errs`): `some e`
  means the store answers that call with error `e` and performs no
  write, `none` (or an exhausted schedule) means the call succeeds.
* `localStorage` is the client-local key/value store restricted to the
  single key `session_id` (`Client.localStorage`).
* `crypto.randomUUID()` is an external generator, passed in as a
  function `uuids : Nat → String` applied to a draw counter
  (`Client.uuidCount`); distinct draws of an injective generator model
  the negligible-collision assumption.
* Row ids assigned by the store are natural numbers drawn from
  `Store.nextId`; `created_at` timestamps come from `Store.clock`.
* JS numbers are modelled exactly: quantities as `Int` (the API accepts
  non-positive values), prices as `Int` (fixed-point numeric(10,2),
  scaled to an integer number of cents).
-/

namespace ShopHub

/-- Errors returned by the store (propagated as thrown values in the
source). -/
abbrev Err := String

/-- A row of the products table (schema: id, category_id nullable,
name, description, price numeric, image_url, stock, created_at). -/
structure Product where
  id : Nat
  category_id : Option Nat
  name : String
  description : String
  price : Int
  image_url : String
  stock : Int
  created_at : Nat
deriving DecidableEq

/-- A stored row of the cart_items table (schema: id, session_id,
product_id, quantity, created_at; the user_id column is never
populated by this code path). -/
structure CartRow where
  id : Nat
  session_id : String
  product_id : Nat
  quantity : Int
  created_at : Nat
deriving DecidableEq

/-- The CartItem interface of src/types: a cart row together with the
optionally joined product (`product:products(*)`). -/
structure CartItem where
  id : Nat
  session_id : String
  product_id : Nat
  quantity : Int
  created_at : Nat
  product : Option Product
deriving DecidableEq

/-- Order status enumeration (pending, completed, cancelled). -/
inductive OrderStatus where
  | pending
  | completed
  | cancelled
deriving DecidableEq

/-- A row of the orders table. -/
structure Order where
  id : Nat
  session_id : String
  total_amount : Int
  status : OrderStatus
  customer_name : String
  customer_email : String
  shipping_address : String
  created_at : Nat
deriving DecidableEq

/-- A row of the order_items table. -/
structure OrderItem where
  id : Nat
  order_id : Nat
  product_id : Nat
  quantity : Int
  price : Int
  created_at : Nat
deriving DecidableEq

/-- The OrderData argument of createOrder. -/
structure OrderData where
  customer_name : String
  customer_email : String
  shipping_address : String
deriving DecidableEq

/-- The remote store: the tables touched by the embedded modules, the
id counter for store-assigned row ids, and a clock for created_at. -/
structure Store where
  products : List Product
  cart_items : List CartRow
  orders : List Order
  order_items : List OrderItem
  nextId : Nat
  clock : Nat
deriving DecidableEq

/-- Client-local state: the value stored under the session_id key (if
any) and how many random UUIDs have been drawn. -/
structure Client where
  localStorage : Option String
  uuidCount : Nat
deriving DecidableEq

/-- A whole configuration: client, store, and the failure schedule for
the upcoming store calls. -/
structure World where
  client : Client
  store : Store
  errs : List (Option Err)
deriving DecidableEq

/-- Consume the next outcome of the failure schedule: the head entry,
or success when the schedule is exhausted. -/
def World.stepErr (w : World) : Option Err × World :=
  match w.errs with
  | [] => (none, w)
  | e :: rest => (e, { w with errs := rest })

@[simp] theorem stepErr_nil (w : World) (h : w.errs = []) :
    w.stepErr = (none, w) := by
  simp [World.stepErr, h]

@[simp] theorem stepErr_cons (w : World) (e : Option Err)
    (rest : List (Option Err)) (h : w.errs = e :: rest) :
    w.stepErr = (e, { w with errs := rest }) := by
  simp [World.stepErr, h]

/-- JS truthiness of a nullable string: null and the empty string are
falsy. -/
def strFalsy : Option String → Bool
  | none => true
  | some s => s = ""

namespace Cart

/-- getSessionId of the cart module (src/api/cart.ts):
reads session_id from localStorage; when absent it draws
crypto.randomUUID(), writes it back with setItem, and returns it. -/
def getSessionId (uuids : Nat → String) (c : Client) : String × Client :=
  if strFalsy c.localStorage then
    let sid := uuids c.uuidCount
    (sid, { c with localStorage := some sid, uuidCount := c.uuidCount + 1 })
  else
    (c.localStorage.getD "", c)

/-- The equality filter used by the cart lookups:
.eq('session_id', sid).eq('product_id', pid). -/
def matchSP (sid : String) (pid : Nat) (r : CartRow) : Bool :=
  r.session_id == sid && r.product_id == pid

/-- One store call: select('*') on cart_items with the (session,
product) filter and .maybeSingle(): no row gives null, one row gives
the row, several matching rows make the store answer with an error. -/
def selectExistingItem (sid : String) (pid : Nat) (w : World) :
    Except Err (Option CartRow) × World :=
  let (e, w) := w.stepErr
  match e with
  | some err => (.error err, w)
  | none =>
    match w.store.cart_items.filter (matchSP sid pid) with
    | [] => (.ok none, w)
    | [r] => (.ok (some r), w)
    | _ => (.error "PGRST116: multiple rows returned", w)

/-- The row transformation of update with a quantity payload filtered
by .eq('id', rid). -/
def updRow (rid : Nat) (q : Int) (r : CartRow) : CartRow :=
  if r.id == rid then { r with quantity := q } else r

/-- One store call: update cart_items set quantity where id = rid. -/
def updateQuantityById (rid : Nat) (q : Int) (w : World) :
    Except Err Unit × World :=
  let (e, w) := w.stepErr
  match e with
  | some err => (.error err, w)
  | none =>
    (.ok (), { w with store := { w.store with
      cart_items := w.store.cart_items.map (updRow rid q) } })

/-- One store call: insert a cart_items row; the store assigns id and
created_at. -/
def insertCartRow (sid : String) (pid : Nat) (q : Int) (w : World) :
    Except Err Unit × World :=
  let (e, w) := w.stepErr
  match e with
  | some err => (.error err, w)
  | none =>
    (.ok (), { w with store := { w.store with
      cart_items := w.store.cart_items ++
        [{ id := w.store.nextId, session_id := sid, product_id := pid,
           quantity := q, created_at := w.store.clock }],
      nextId := w.store.nextId + 1,
      clock := w.store.clock + 1 } })

/-- addToCart(productId, quantity = 1): resolve the session id, look
up an existing (session, product) row, then either accumulate onto it
or insert a fresh row.  The source destructures only `data` from the
lookup answer, so a lookup error is discarded and treated as "no
existing item". -/
def addToCart (uuids : Nat → String) (productId : Nat) (quantity : Int)
    (w : World) : Except Err Unit × World :=
  let (sessionId, c) := getSessionId uuids w.client
  let w := { w with client := c }
  let (res, w) := selectExistingItem sessionId productId w
  let existingItem : Option CartRow :=
    match res with
    | .ok o => o
    | .error _ => none
  match existingItem with
  | some item => updateQuantityById item.id (item.quantity + quantity) w
  | none => insertCartRow sessionId productId quantity w

/-- removeFromCart(cartItemId): delete from cart_items where id
matches; propagates the store error. -/
def removeFromCart (cartItemId : Nat) (w : World) :
    Except Err Unit × World :=
  let (e, w) := w.stepErr
  match e with
  | some err => (.error err, w)
  | none =>
    (.ok (), { w with store := { w.store with
      cart_items := w.store.cart_items.filter
        (fun r => !(r.id == cartItemId)) } })

/-- updateCartItemQuantity(cartItemId, quantity): quantity ≤ 0
delegates to removeFromCart; otherwise one update call setting the
quantity directly. -/
def updateCartItemQuantity (cartItemId : Nat) (quantity : Int)
    (w : World) : Except Err Unit × World :=
  if quantity ≤ 0 then
    removeFromCart cartItemId w
  else
    updateQuantityById cartItemId quantity w

/-- clearCart(): resolve the session id, then delete from cart_items
where session_id matches. -/
def clearCart (uuids : Nat → String) (w : World) :
    Except Err Unit × World :=
  let (sessionId, c) := getSessionId uuids w.client
  let w := { w with client := c }
  let (e, w) := w.stepErr
  match e with
  | some err => (.error err, w)
  | none =>
    (.ok (), { w with store := { w.store with
      cart_items := w.store.cart_items.filter
        (fun r => !(r.session_id == sessionId)) } })

/-- The join product:products(*) attached to a selected cart row. -/
def joinProduct (products : List Product) (r : CartRow) : CartItem :=
  { id := r.id, session_id := r.session_id, product_id := r.product_id,
    quantity := r.quantity, created_at := r.created_at,
    product := products.find? (fun p => p.id == r.product_id) }

/-- getCartItems(): the caller's cart rows, each with its joined
product. -/
def getCartItems (uuids : Nat → String) (w : World) :
    Except Err (List CartItem) × World :=
  let (sessionId, c) := getSessionId uuids w.client
  let w := { w with client := c }
  let (e, w) := w.stepErr
  match e with
  | some err => (.error err, w)
  | none =>
    (.ok ((w.store.cart_items.filter
        (fun r => r.session_id == sessionId)).map
        (joinProduct w.store.products)), w)

end Cart

namespace Orders

/-- getSessionId of the orders module (src/api/orders.ts):
localStorage.getItem('session_id') || crypto.randomUUID().
Unlike the cart module's version, it never writes the freshly drawn
UUID back to storage. -/
def getSessionId (uuids : Nat → String) (c : Client) : String × Client :=
  if strFalsy c.localStorage then
    (uuids c.uuidCount, { c with uuidCount := c.uuidCount + 1 })
  else
    (c.localStorage.getD "", c)

/-- item.product?.price || 0: the joined product's price, or 0 when
the join is absent (a price of exactly 0 is falsy in JS and the
fallback is also 0, so the two readings coincide). -/
def priceOrZero : Option Product → Int
  | some p => p.price
  | none => 0

/-- The totalAmount reduce of createOrder:
cartItems.reduce((sum, item) => sum + (item.product?.price || 0) * item.quantity, 0). -/
def totalAmount (cartItems : List CartItem) : Int :=
  cartItems.foldl (fun sum item => sum + priceOrZero item.product * item.quantity) 0

/-- One store call: insert the order header and select it back
(.select().single()); the store assigns id and created_at. -/
def insertOrder (sessionId : String) (total : Int) (od : OrderData)
    (w : World) : Except Err Order × World :=
  let (e, w) := w.stepErr
  match e with
  | some err => (.error err, w)
  | none =>
    let o : Order :=
      { id := w.store.nextId, session_id := sessionId,
        total_amount := total, status := .pending,
        customer_name := od.customer_name,
        customer_email := od.customer_email,
        shipping_address := od.shipping_address,
        created_at := w.store.clock }
    (.ok o, { w with store := { w.store with
      orders := w.store.orders ++ [o],
      nextId := w.store.nextId + 1,
      clock := w.store.clock + 1 } })

/-- The order_items payload built from the cart items: order id,
product id, copied quantity, and the snapshotted price (id and
created_at are left for the store to assign). -/
def mkOrderItem (orderId : Nat) (item : CartItem) : OrderItem :=
  { id := 0, order_id := orderId, product_id := item.product_id,
    quantity := item.quantity, price := priceOrZero item.product,
    created_at := 0 }

/-- One store call: batch insert of the order_items rows; the store
assigns consecutive ids and a shared created_at. -/
def insertOrderItems (rows : List OrderItem) (w : World) :
    Except Err Unit × World :=
  let (e, w) := w.stepErr
  match e with
  | some err => (.error err, w)
  | none =>
    (.ok (), { w with store := { w.store with
      order_items := w.store.order_items ++
        (List.range rows.length).zipWith
          (fun i r => { r with id := w.store.nextId + i,
                               created_at := w.store.clock }) rows,
      nextId := w.store.nextId + rows.length,
      clock := w.store.clock + 1 } })

/-- createOrder(cartItems, orderData): compute the total from the
passed items' attached product prices, insert the order header, insert
the order items, then clear the cart.  Every error of the three store
steps is rethrown; in particular `await clearCart()` is not guarded,
so a cart-clear failure propagates out of createOrder. -/
def createOrder (uuids : Nat → String) (cartItems : List CartItem)
    (orderData : OrderData) (w : World) : Except Err Order × World :=
  let (sessionId, c) := getSessionId uuids w.client
  let w := { w with client := c }
  let total := totalAmount cartItems
  let (res, w) := insertOrder sessionId total orderData w
  match res with
  | .error err => (.error err, w)
  | .ok order =>
    let orderItems := cartItems.map (mkOrderItem order.id)
    let (res2, w) := insertOrderItems orderItems w
    match res2 with
    | .error err => (.error err, w)
    | .ok _ =>
      let (res3, w) := Cart.clearCart uuids w
      match res3 with
      | .error err => (.error err, w)
      | .ok _ => (.ok order, w)

/-- getOrders(): the caller's orders, newest first (ordered by
created_at descending). -/
def getOrders (uuids : Nat → String) (w : World) :
    Except Err (List Order) × World :=
  let (sessionId, c) := getSessionId uuids w.client
  let w := { w with client := c }
  let (e, w) := w.stepErr
  match e with
  | some err => (.error err, w)
  | none =>
    (.ok ((w.store.orders.filter
        (fun o => o.session_id == sessionId)).mergeSort
        (fun a b => b.created_at ≤ a.created_at)), w)

/-- getOrderById(orderId): select on orders filtered by id with
.maybeSingle(): absence is an ok-null answer, not an error. -/
def getOrderById (orderId : Nat) (w : World) :
    Except Err (Option Order) × World :=
  let (e, w) := w.stepErr
  match e with
  | some err => (.error err, w)
  | none =>
    match w.store.orders.filter (fun o => o.id == orderId) with
    | [] => (.ok none, w)
    | [o] => (.ok (some o), w)
    | _ => (.error "PGRST116: multiple rows returned", w)

/-- The joined OrderItem view returned by getOrderItems (the stored
row plus product:products(*)).  Only the stored fields appear in the
claims, so the join result is represented as the pair. -/
def joinOrderProduct (products : List Product) (r : OrderItem) :
    OrderItem × Option Product :=
  (r, products.find? (fun p => p.id == r.product_id))

/-- getOrderItems(orderId): the order's item rows, each with its
joined product. -/
def getOrderItems (orderId : Nat) (w : World) :
    Except Err (List (OrderItem × Option Product)) × World :=
  let (e, w) := w.stepErr
  match e with
  | some err => (.error err, w)
  | none =>
    (.ok ((w.store.order_items.filter
        (fun r => r.order_id == orderId)).map
        (joinOrderProduct w.store.products)), w)

end Orders

/-- A serial sequence of addToCart calls for one product, one call per
quantity in the list (the serial-execution scenario of the spec). -/
def Cart.addAll (uuids : Nat → String) (pid : Nat) (qs : List Int)
    (w : World) : World :=
  qs.foldl (fun w q => (Cart.addToCart uuids pid q w).2) w

/-- The same configuration with the live products table replaced,
modelling a later change to live Product prices. -/
def World.withProducts (w : World) (P : List Product) : World :=
  { w with store := { w.store with products := P } }

/-! ### Basic simp facts about the embedding -/

@[simp] theorem withProducts_client (w : World) (P : List Product) :
    (w.withProducts P).client = w.client := rfl

@[simp] theorem withProducts_errs (w : World) (P : List Product) :
    (w.withProducts P).errs = w.errs := rfl

@[simp] theorem withProducts_nextId (w : World) (P : List Product) :
    (w.withProducts P).store.nextId = w.store.nextId := rfl

@[simp] theorem withProducts_clock (w : World) (P : List Product) :
    (w.withProducts P).store.clock = w.store.clock := rfl

@[simp] theorem withProducts_orders (w : World) (P : List Product) :
    (w.withProducts P).store.orders = w.store.orders := rfl

@[simp] theorem withProducts_order_items (w : World) (P : List Product) :
    (w.withProducts P).store.order_items = w.store.order_items := rfl

@[simp] theorem withProducts_cart_items (w : World) (P : List Product) :
    (w.withProducts P).store.cart_items = w.store.cart_items := rfl

/-- With a nonempty session token already in storage, the cart
module's getSessionId returns it without touching anything. -/
theorem cartGetSessionId_stored (uuids : Nat → String) (c : Client)
    (s : String) (h : c.localStorage = some s) (hs : s ≠ "") :
    Cart.getSessionId uuids c = (s, c) := by
  simp [Cart.getSessionId, strFalsy, h, hs]

/-- With a nonempty session token already in storage, the orders
module's getSessionId returns it without touching anything. -/
theorem ordersGetSessionId_stored (uuids : Nat → String) (c : Client)
    (s : String) (h : c.localStorage = some s) (hs : s ≠ "") :
    Orders.getSessionId uuids c = (s, c) := by
  simp [Orders.getSessionId, strFalsy, h, hs]

end ShopHub

namespace ShopHub

/-- A sample cart row used by the concrete witnesses. -/
def sampleRow : CartRow :=
  { id := 3, session_id := "sess", product_id := 7, quantity := 2,
    created_at := 0 }

/-- A sample client with a stored session token. -/
def sampleClient : Client := { localStorage := some "sess", uuidCount := 0 }

/-- A sample store holding one cart row. -/
def sampleStore : Store :=
  { products := [], cart_items := [sampleRow], orders := [],
    order_items := [], nextId := 10, clock := 0 }

/-- A sample world where every store call succeeds. -/
def W0 : World := { client := sampleClient, store := sampleStore, errs := [] }

/-- C6: updateCartItemQuantity with q ≤ 0 delegates to removeFromCart
and the row with that id is deleted; with q > 0 the call succeeds and
every row with that id gets quantity exactly q (no accumulation),
other rows unchanged. -/
theorem updateCartItemQuantity_sets_or_deletes (cartItemId : Nat)
    (q : Int) (w : World) (h : w.errs = []) :
    (q ≤ 0 →
      Cart.updateCartItemQuantity cartItemId q w =
        Cart.removeFromCart cartItemId w ∧
      ((Cart.updateCartItemQuantity cartItemId q w).2).store.cart_items =
        w.store.cart_items.filter (fun r => !(r.id == cartItemId))) ∧
    (0 < q →
      (Cart.updateCartItemQuantity cartItemId q w).1 = .ok () ∧
      ((Cart.updateCartItemQuantity cartItemId q w).2).store.cart_items =
        w.store.cart_items.map (Cart.updRow cartItemId q)) := by
  constructor
  · intro hq
    constructor
    · simp [Cart.updateCartItemQuantity, hq]
    · simp [Cart.updateCartItemQuantity, hq, Cart.removeFromCart,
        World.stepErr, h]
  · intro hq
    have hq' : ¬ q ≤ 0 := not_le.mpr hq
    constructor
    · simp [Cart.updateCartItemQuantity, hq', Cart.updateQuantityById,
        World.stepErr, h]
    · simp [Cart.updateCartItemQuantity, hq', Cart.updateQuantityById,
        World.stepErr, h]

/-- C6 witness: at cartItemId 3 the call with q = -1 deletes the row
and the call with q = 5 sets its quantity to 5. -/
theorem updateCartItemQuantity_sets_or_deletes_witness :
    ((Cart.updateCartItemQuantity 3 (-1) W0).2).store.cart_items = [] ∧
    ((Cart.updateCartItemQuantity 3 5 W0).2).store.cart_items =
      [{ sampleRow with quantity := 5 }] := by
  constructor
  · rw [((updateCartItemQuantity_sets_or_deletes 3 (-1) W0 rfl).1
      (by decide)).2]
    decide
  · rw [((updateCartItemQuantity_sets_or_deletes 3 5 W0 rfl).2
      (by decide)).2]
    decide

end ShopHub

namespace ShopHub

/-- C9: a successful clearCart removes exactly the calling session's
cart rows: afterwards the session has zero rows, and the remaining
table is precisely the rows of other sessions, unchanged. -/
theorem clearCart_removes_exactly_session (uuids : Nat → String)
    (s : String) (w : World) (h : w.errs = [])
    (hls : w.client.localStorage = some s) (hs : s ≠ "") :
    (Cart.clearCart uuids w).1 = .ok () ∧
    ((Cart.clearCart uuids w).2).store.cart_items =
      w.store.cart_items.filter (fun r => !(r.session_id == s)) ∧
    ((Cart.clearCart uuids w).2).store.cart_items.filter
      (fun r => r.session_id == s) = [] := by
  have hsid := cartGetSessionId_stored uuids w.client s hls hs
  refine ⟨?_, ?_, ?_⟩
  · simp [Cart.clearCart, hsid, World.stepErr, h]
  · simp [Cart.clearCart, hsid, World.stepErr, h]
  · simp only [Cart.clearCart, hsid, World.stepErr, h]
    simp [List.filter_filter]

/-- C9 witness: clearing the sample session leaves only the foreign
row. -/
theorem clearCart_removes_exactly_session_witness :
    let w : World := { W0 with store := { sampleStore with cart_items :=
      [sampleRow,
       { id := 4, session_id := "other", product_id := 9, quantity := 1,
         created_at := 0 }] } }
    ((Cart.clearCart (fun n => toString n) w).2).store.cart_items =
      [{ id := 4, session_id := "other", product_id := 9, quantity := 1,
         created_at := 0 }] := by
  intro w
  rw [(clearCart_removes_exactly_session (fun n => toString n) "sess" w
    rfl rfl (by decide)).2.1]
  decide

end ShopHub

namespace ShopHub

/-- In a list whose keys are nodup, filtering on the key of a member
returns exactly that member. -/
lemma filter_eq_singleton_of_nodup_key {α : Type} (key : α → Nat)
    (l : List α) (hnd : (l.map key).Nodup) (o : α) (ho : o ∈ l) :
    l.filter (fun a => key a == key o) = [o] := by
  induction l with
  | nil => cases ho
  | cons a l ih =>
    simp only [List.map_cons, List.nodup_cons, List.mem_map] at hnd
    rcases List.mem_cons.mp ho with rfl | hmem
    · have : l.filter (fun x => key x == key o) = [] := by
        apply List.filter_eq_nil_iff.mpr
        intro x hx
        simp only [beq_iff_eq]
        intro hxk
        exact hnd.1 ⟨x, hx, hxk⟩
      simp [List.filter_cons, this]
    · have hak : key a ≠ key o := by
        intro hk
        exact hnd.1 ⟨o, hmem, hk.symm⟩
      have := ih hnd.2 hmem
      simp [List.filter_cons, hak, this]

/-- C8: with order ids nodup, getOrderById of an id no order carries
answers ok-none (absence, not an error), and getOrderById of an
existing order's id answers exactly that order. -/
theorem getOrderById_absent_or_found (orderId : Nat) (w : World)
    (h : w.errs = []) (hnd : (w.store.orders.map Order.id).Nodup) :
    ((∀ o ∈ w.store.orders, o.id ≠ orderId) →
      (Orders.getOrderById orderId w).1 = .ok none) ∧
    (∀ o ∈ w.store.orders, o.id = orderId →
      (Orders.getOrderById orderId w).1 = .ok (some o)) := by
  constructor
  · intro hab
    have hf : w.store.orders.filter (fun o => o.id == orderId) = [] := by
      apply List.filter_eq_nil_iff.mpr
      intro o ho
      simp only [beq_iff_eq]
      exact hab o ho
    simp [Orders.getOrderById, World.stepErr, h, hf]
  · intro o ho hid
    have hf := filter_eq_singleton_of_nodup_key Order.id w.store.orders hnd o ho
    rw [hid] at hf
    simp [Orders.getOrderById, World.stepErr, h, hf]

/-- A sample order used by the witnesses. -/
def sampleOrder : Order :=
  { id := 5, session_id := "sess", total_amount := 100, status := .pending,
    customer_name := "N", customer_email := "E", shipping_address := "S",
    created_at := 0 }

/-- C8 witness: in a store holding only order 5, looking up id 99
answers ok-none and looking up id 5 answers order 5. -/
theorem getOrderById_absent_or_found_witness :
    let w : World := { W0 with store := { sampleStore with orders := [sampleOrder] } }
    (Orders.getOrderById 99 w).1 = .ok none ∧
    (Orders.getOrderById 5 w).1 = .ok (some sampleOrder) := by
  intro w
  constructor
  · exact (getOrderById_absent_or_found 99 w rfl (by decide)).1
      (by decide)
  · exact (getOrderById_absent_or_found 5 w rfl (by decide)).2
      sampleOrder (by decide) rfl

end ShopHub

namespace ShopHub

/-- Sample customer fields for the witnesses. -/
def od0 : OrderData :=
  { customer_name := "N", customer_email := "E", shipping_address := "S" }

/-- C5: when the order-header insert fails, or when it succeeds and
the order-items insert fails, createOrder answers with exactly the
store's error and the cart_items table is untouched (the cart is not
cleared). -/
theorem createOrder_propagates_insert_errors (uuids : Nat → String)
    (items : List CartItem) (od : OrderData) (w : World) (e : Err)
    (rest : List (Option Err)) :
    (w.errs = some e :: rest →
      (Orders.createOrder uuids items od w).1 = .error e ∧
      ((Orders.createOrder uuids items od w).2).store.cart_items =
        w.store.cart_items) ∧
    (w.errs = none :: some e :: rest →
      (Orders.createOrder uuids items od w).1 = .error e ∧
      ((Orders.createOrder uuids items od w).2).store.cart_items =
        w.store.cart_items) := by
  constructor
  · intro h
    constructor
    · simp [Orders.createOrder, Orders.insertOrder, World.stepErr, h]
    · simp [Orders.createOrder, Orders.insertOrder, World.stepErr, h]
  · intro h
    constructor
    · simp [Orders.createOrder, Orders.insertOrder,
        Orders.insertOrderItems, World.stepErr, h]
    · simp [Orders.createOrder, Orders.insertOrder,
        Orders.insertOrderItems, World.stepErr, h]

/-- The sample world with the first store call failing. -/
def Whdr : World := { W0 with errs := [some "hdr"] }

/-- The sample world with the second store call failing. -/
def Witems : World := { W0 with errs := [none, some "items"] }

/-- C5 witness: with the header (resp. items) insert failing,
createOrder answers that error and the sample cart row is still
there. -/
theorem createOrder_propagates_insert_errors_witness :
    ((Orders.createOrder (fun n => toString n) [] od0 Whdr).1 =
        .error "hdr" ∧
      ((Orders.createOrder (fun n => toString n) [] od0 Whdr).2).store.cart_items =
        Whdr.store.cart_items) ∧
    ((Orders.createOrder (fun n => toString n) [] od0 Witems).1 =
        .error "items" ∧
      ((Orders.createOrder (fun n => toString n) [] od0 Witems).2).store.cart_items =
        Witems.store.cart_items) := by
  constructor
  · exact (createOrder_propagates_insert_errors (fun n => toString n) []
      od0 Whdr "hdr" []).1 rfl
  · exact (createOrder_propagates_insert_errors (fun n => toString n) []
      od0 Witems "items" []).2 rfl

end ShopHub

namespace ShopHub

/-- The sample world where both inserts succeed and the cart clear
fails. -/
def Wboom : World := { W0 with errs := [none, none, some "boom"] }

/-- C4 counterexample: with both inserts succeeding and the cart clear
failing, createOrder does NOT return the placed order: it propagates
the clear's error, even though the order header was inserted (the
orders table is nonempty afterwards). -/
theorem createOrder_clearFail_raises :
    (Orders.createOrder (fun n => toString n) [] od0 Wboom).1 =
      .error "boom" ∧
    ((Orders.createOrder (fun n => toString n) [] od0 Wboom).2).store.orders ≠
      [] := by
  constructor
  · rfl
  · decide

/-- C4 amended: when the header and items inserts succeed and the cart
clear fails, createOrder propagates the clear's error to the caller
instead of returning the Order; the inserted order header and items
remain in the store and the cart is not cleared. -/
theorem createOrder_clearFail_propagates (uuids : Nat → String)
    (items : List CartItem) (od : OrderData) (w : World) (e : Err)
    (rest : List (Option Err)) (h : w.errs = none :: none :: some e :: rest) :
    (Orders.createOrder uuids items od w).1 = .error e ∧
    ((Orders.createOrder uuids items od w).2).store.orders =
      w.store.orders ++
        [{ id := w.store.nextId,
           session_id := (Orders.getSessionId uuids w.client).1,
           total_amount := Orders.totalAmount items, status := .pending,
           customer_name := od.customer_name,
           customer_email := od.customer_email,
           shipping_address := od.shipping_address,
           created_at := w.store.clock }] ∧
    ((Orders.createOrder uuids items od w).2).store.order_items =
      w.store.order_items ++
        (List.range items.length).zipWith
          (fun i r => { r with id := w.store.nextId + 1 + i,
                               created_at := w.store.clock + 1 })
          (items.map (Orders.mkOrderItem w.store.nextId)) ∧
    ((Orders.createOrder uuids items od w).2).store.cart_items =
      w.store.cart_items := by
  refine ⟨?_, ?_, ?_, ?_⟩ <;>
    simp [Orders.createOrder, Orders.insertOrder, Orders.insertOrderItems,
      Cart.clearCart, World.stepErr, h]

/-- C4 witness for the amended claim, at the concrete failing world. -/
theorem createOrder_clearFail_propagates_witness :
    (Orders.createOrder (fun n => toString n) [] od0 Wboom).2.store.cart_items =
      Wboom.store.cart_items ∧
    (Orders.createOrder (fun n => toString n) [] od0 Wboom).2.store.orders ≠
      Wboom.store.orders := by
  constructor
  · exact (createOrder_clearFail_propagates (fun n => toString n) [] od0
      Wboom "boom" [] rfl).2.2.2
  · rw [(createOrder_clearFail_propagates (fun n => toString n) [] od0
      Wboom "boom" [] rfl).2.1]
    decide

end ShopHub

namespace ShopHub

/-- The order header createOrder inserts in a world whose store calls
all succeed. -/
def expectedOrder (uuids : Nat → String) (items : List CartItem)
    (od : OrderData) (w : World) : Order :=
  { id := w.store.nextId,
    session_id := (Orders.getSessionId uuids w.client).1,
    total_amount := Orders.totalAmount items, status := .pending,
    customer_name := od.customer_name,
    customer_email := od.customer_email,
    shipping_address := od.shipping_address,
    created_at := w.store.clock }

/-- Success-path anatomy of createOrder: with every store call
succeeding, it returns the inserted header, appends it to orders, and
appends one order_items row per cart item. -/
lemma createOrder_ok_parts (uuids : Nat → String) (items : List CartItem)
    (od : OrderData) (w : World) (h : w.errs = []) :
    (Orders.createOrder uuids items od w).1 =
      .ok (expectedOrder uuids items od w) ∧
    ((Orders.createOrder uuids items od w).2).store.orders =
      w.store.orders ++ [expectedOrder uuids items od w] ∧
    ((Orders.createOrder uuids items od w).2).store.order_items =
      w.store.order_items ++
        (List.range items.length).zipWith
          (fun i r => { r with id := w.store.nextId + 1 + i,
                               created_at := w.store.clock + 1 })
          (items.map (Orders.mkOrderItem w.store.nextId)) := by
  refine ⟨?_, ?_, ?_⟩ <;>
    simp [Orders.createOrder, Orders.insertOrder, Orders.insertOrderItems,
      Cart.clearCart, World.stepErr, h, expectedOrder]

end ShopHub

namespace ShopHub

/-- The reduce computing totalAmount is the sum of the per-line
price-times-quantity contributions. -/
lemma totalAmount_eq_sum (items : List CartItem) :
    Orders.totalAmount items =
      (items.map (fun it => Orders.priceOrZero it.product * it.quantity)).sum := by
  have key : ∀ (l : List CartItem) (a : Int),
      l.foldl (fun sum item => sum + Orders.priceOrZero item.product * item.quantity) a =
        a + (l.map (fun it => Orders.priceOrZero it.product * it.quantity)).sum := by
    intro l
    induction l with
    | nil => intro a; simp
    | cons x l ih =>
      intro a
      simp only [List.foldl_cons, List.map_cons, List.sum_cons, ih]
      ring
  simpa using key items 0

/-- Mapping a function unaffected by a reindexing over a zipWith with
the index list is mapping it over the rows alone. -/
lemma map_zipWith_of_invariant {α β γ : Type} (g : β → α → α)
    (strip : α → γ) (hg : ∀ i r, strip (g i r) = strip r) :
    ∀ (idx : List β) (rows : List α), idx.length = rows.length →
      (List.zipWith g idx rows).map strip = rows.map strip := by
  intro idx
  induction idx with
  | nil =>
    intro rows hlen
    cases rows with
    | nil => simp
    | cons r rows => simp at hlen
  | cons i idx ih =>
    intro rows hlen
    cases rows with
    | nil => simp at hlen
    | cons r rows =>
      simp only [List.zipWith_cons_cons, List.map_cons, hg]
      rw [ih rows (by simpa using hlen)]

/-- C1: with each cart item carrying a joined product whose price is
prices item, a successful createOrder writes a header whose
total_amount is Σ price·quantity over the items as passed, appends one
order_items row per cart item carrying that snapshotted price and the
copied quantity, and neither the returned value nor the inserted
order_items depend on the live products table. -/
theorem createOrder_total_is_snapshot_sum (uuids : Nat → String)
    (items : List CartItem) (od : OrderData) (w : World)
    (prices : CartItem → Int) (h : w.errs = [])
    (hall : ∀ item ∈ items, ∃ p, item.product = some p ∧ p.price = prices item) :
    (Orders.createOrder uuids items od w).1 =
      .ok (expectedOrder uuids items od w) ∧
    ((Orders.createOrder uuids items od w).2).store.orders =
      w.store.orders ++ [expectedOrder uuids items od w] ∧
    (expectedOrder uuids items od w).total_amount =
      (items.map (fun it => prices it * it.quantity)).sum ∧
    (((Orders.createOrder uuids items od w).2).store.order_items).map
        (fun r => (r.order_id, r.product_id, r.quantity, r.price)) =
      w.store.order_items.map
        (fun r => (r.order_id, r.product_id, r.quantity, r.price)) ++
      items.map (fun it => (w.store.nextId, it.product_id, it.quantity,
        prices it)) ∧
    (∀ P, (Orders.createOrder uuids items od (w.withProducts P)).1 =
        (Orders.createOrder uuids items od w).1 ∧
      ((Orders.createOrder uuids items od (w.withProducts P)).2).store.order_items =
        ((Orders.createOrder uuids items od w).2).store.order_items) := by
  obtain ⟨h1, h2, h3⟩ := createOrder_ok_parts uuids items od w h
  have hpz : ∀ item ∈ items, Orders.priceOrZero item.product = prices item := by
    intro item hmem
    obtain ⟨p, hp, hprice⟩ := hall item hmem
    simp [Orders.priceOrZero, hp, hprice]
  refine ⟨h1, h2, ?_, ?_, ?_⟩
  · simp only [expectedOrder]
    rw [totalAmount_eq_sum]
    congr 1
    exact List.map_congr_left (fun it hmem => by rw [hpz it hmem])
  · rw [h3]
    simp only [List.map_append]
    congr 1
    have hz := map_zipWith_of_invariant
      (fun (i : Nat) (r : OrderItem) => ({ r with id := w.store.nextId + 1 + i, created_at := w.store.clock + 1 } : OrderItem))
      (fun r => (r.order_id, r.product_id, r.quantity, r.price))
      (fun i r => rfl) (List.range items.length)
      (items.map (Orders.mkOrderItem w.store.nextId)) (by simp)
    rw [hz]
    rw [List.map_map]
    exact List.map_congr_left (fun it hmem => by
      simp [Orders.mkOrderItem, hpz it hmem])
  · intro P
    have h' : (w.withProducts P).errs = [] := by simpa using h
    obtain ⟨g1, g2, g3⟩ := createOrder_ok_parts uuids items od
      (w.withProducts P) h'
    have hexp : expectedOrder uuids items od (w.withProducts P) =
        expectedOrder uuids items od w := by
      simp [expectedOrder, World.withProducts]
    constructor
    · rw [g1, h1, hexp]
    · rw [g3, h3]
      simp [World.withProducts]

end ShopHub

namespace ShopHub

/-- A sample product of price 1000 (in cents). -/
def sampleProduct : Product :=
  { id := 7, category_id := none, name := "A", description := "",
    price := 1000, image_url := "", stock := 5, created_at := 0 }

/-- A sample cart item joined with sampleProduct, quantity 3. -/
def sampleItem : CartItem :=
  { id := 1, session_id := "sess", product_id := 7, quantity := 3,
    created_at := 0, product := some sampleProduct }

/-- C1 witness: one item of price 1000 and quantity 3 yields a header
with total_amount 3000. -/
theorem createOrder_total_is_snapshot_sum_witness :
    (Orders.createOrder (fun n => toString n) [sampleItem] od0 W0).1 =
      .ok (expectedOrder (fun n => toString n) [sampleItem] od0 W0) ∧
    (expectedOrder (fun n => toString n) [sampleItem] od0 W0).total_amount =
      3000 := by
  have H := createOrder_total_is_snapshot_sum (fun n => toString n)
    [sampleItem] od0 W0 (fun _ => 1000) rfl
    (by
      intro item hmem
      rw [List.mem_singleton.mp hmem]
      exact ⟨sampleProduct, rfl, rfl⟩)
  refine ⟨H.1, ?_⟩
  rw [H.2.2.1]
  decide

end ShopHub

namespace ShopHub

/-- C10: a cart line whose joined product is absent does not make
createOrder fail: the run succeeds, the total is the sum of the
priceOrZero contributions — 0 for such a line — and the corresponding
order_items row is inserted with price 0 and the copied quantity. -/
theorem createOrder_absent_product_contributes_zero (uuids : Nat → String)
    (items : List CartItem) (od : OrderData) (w : World)
    (h : w.errs = []) :
    (Orders.createOrder uuids items od w).1 =
      .ok (expectedOrder uuids items od w) ∧
    (expectedOrder uuids items od w).total_amount =
      (items.map (fun it => Orders.priceOrZero it.product * it.quantity)).sum ∧
    (((Orders.createOrder uuids items od w).2).store.order_items).map
        (fun r => (r.order_id, r.product_id, r.quantity, r.price)) =
      w.store.order_items.map
        (fun r => (r.order_id, r.product_id, r.quantity, r.price)) ++
      items.map (fun it => (w.store.nextId, it.product_id, it.quantity,
        Orders.priceOrZero it.product)) ∧
    (∀ item ∈ items, item.product = none →
      Orders.priceOrZero item.product = 0) := by
  obtain ⟨h1, h2, h3⟩ := createOrder_ok_parts uuids items od w h
  refine ⟨h1, ?_, ?_, ?_⟩
  · simp only [expectedOrder]
    exact totalAmount_eq_sum items
  · rw [h3]
    simp only [List.map_append]
    congr 1
    have hz := map_zipWith_of_invariant
      (fun (i : Nat) (r : OrderItem) => ({ r with id := w.store.nextId + 1 + i, created_at := w.store.clock + 1 } : OrderItem))
      (fun r => (r.order_id, r.product_id, r.quantity, r.price))
      (fun i r => rfl) (List.range items.length)
      (items.map (Orders.mkOrderItem w.store.nextId)) (by simp)
    rw [hz, List.map_map]
    rfl
  · intro item _ hnone
    rw [hnone]
    rfl

/-- A sample cart item whose joined product is absent. -/
def orphanItem : CartItem :=
  { id := 2, session_id := "sess", product_id := 8, quantity := 4,
    created_at := 0, product := none }

/-- C10 witness: ordering one product-less line of quantity 4 succeeds
with total 0 and inserts one row of price 0. -/
theorem createOrder_absent_product_contributes_zero_witness :
    (Orders.createOrder (fun n => toString n) [orphanItem] od0 W0).1 =
      .ok (expectedOrder (fun n => toString n) [orphanItem] od0 W0) ∧
    (expectedOrder (fun n => toString n) [orphanItem] od0 W0).total_amount =
      0 ∧
    (((Orders.createOrder (fun n => toString n) [orphanItem] od0 W0).2).store.order_items).map
        (fun r => (r.order_id, r.product_id, r.quantity, r.price)) =
      [(10, 8, 4, 0)] := by
  have H := createOrder_absent_product_contributes_zero
    (fun n => toString n) [orphanItem] od0 W0 rfl
  refine ⟨H.1, ?_, ?_⟩
  · rw [H.2.1]; decide
  · rw [H.2.2.1]; decide

end ShopHub

namespace ShopHub

/-- An injective stand-in for crypto.randomUUID: draw n yields the
decimal numeral of n. -/
def uuidGen (n : Nat) : String := toString n

/-- A fresh client: nothing in localStorage yet. -/
def freshClient : Client := { localStorage := none, uuidCount := 0 }

/-- C3: on a fresh client the orders module's getSessionId draws a new
random token on every call and never persists it — two consecutive
resolutions disagree and storage stays empty — whereas the cart
module's getSessionId persists the first draw and every later call
returns that same stored value. -/
theorem ordersGetSessionId_unstable_cartGetSessionId_stable :
    (Orders.getSessionId uuidGen freshClient).1 ≠
      (Orders.getSessionId uuidGen
        (Orders.getSessionId uuidGen freshClient).2).1 ∧
    (Orders.getSessionId uuidGen freshClient).2.localStorage = none ∧
    (Orders.getSessionId uuidGen
      (Orders.getSessionId uuidGen freshClient).2).2.localStorage = none ∧
    (Cart.getSessionId uuidGen freshClient).2.localStorage =
      some (Cart.getSessionId uuidGen freshClient).1 ∧
    (Cart.getSessionId uuidGen
      (Cart.getSessionId uuidGen freshClient).2).1 =
      (Cart.getSessionId uuidGen freshClient).1 ∧
    (Cart.getSessionId uuidGen
      (Cart.getSessionId uuidGen freshClient).2).2 =
      (Cart.getSessionId uuidGen freshClient).2 := by
  decide

end ShopHub

namespace ShopHub

/-- The sample world whose first store call (the addToCart lookup)
fails. -/
def Wlook : World := { W0 with errs := [some "neterr"] }

/-- C7 counterexample: in Wlook the session already owns a row for
product 7 and the lookup fails with a store error, yet addToCart
reports success — the lookup error is discarded, not propagated — and
even inserts a second row for the same (session, product) pair. -/
theorem addToCart_swallows_lookup_error :
    (Cart.addToCart uuidGen 7 2 Wlook).1 = .ok () ∧
    ((Cart.addToCart uuidGen 7 2 Wlook).2).store.cart_items.filter
      (Cart.matchSP "sess" 7) ≠ [sampleRow] := by
  exact ⟨rfl, by decide⟩

/-- C7 amended: store errors of every mutating store call — the
addToCart update/insert after a successful lookup, the
updateCartItemQuantity update, the removeFromCart delete, the
clearCart delete — propagate unchanged; a failing addToCart lookup,
however, is discarded and the call falls through to the insert branch
on the remaining schedule. -/
theorem cart_mutation_errors_propagate (uuids : Nat → String)
    (w : World) (e : Err) (rest : List (Option Err)) (s : String)
    (pid rid : Nat) (q : Int) (hls : w.client.localStorage = some s)
    (hs : s ≠ "") :
    (w.errs = none :: some e :: rest →
      (Cart.addToCart uuids pid q w).1 = .error e) ∧
    (w.errs = some e :: rest →
      (Cart.updateCartItemQuantity rid q w).1 = .error e) ∧
    (w.errs = some e :: rest →
      (Cart.removeFromCart rid w).1 = .error e) ∧
    (w.errs = some e :: rest →
      (Cart.clearCart uuids w).1 = .error e) ∧
    (w.errs = some e :: rest →
      Cart.addToCart uuids pid q w =
        Cart.insertCartRow s pid q { w with errs := rest }) := by
  have hsid := cartGetSessionId_stored uuids w.client s hls hs
  refine ⟨?_, ?_, ?_, ?_, ?_⟩
  · intro h
    rcases hf : w.store.cart_items.filter (Cart.matchSP s pid) with
      _ | ⟨r, _ | ⟨r2, rs⟩⟩ <;>
      simp [Cart.addToCart, hsid, Cart.selectExistingItem, World.stepErr,
        h, hf, Cart.insertCartRow, Cart.updateQuantityById]
  · intro h
    rcases le_or_lt q 0 with hq | hq
    · simp [Cart.updateCartItemQuantity, hq, Cart.removeFromCart,
        World.stepErr, h]
    · simp [Cart.updateCartItemQuantity, not_le.mpr hq,
        Cart.updateQuantityById, World.stepErr, h]
  · intro h
    simp [Cart.removeFromCart, World.stepErr, h]
  · intro h
    simp [Cart.clearCart, hsid, World.stepErr, h]
  · intro h
    simp [Cart.addToCart, hsid, Cart.selectExistingItem, World.stepErr, h]

/-- C7 witness for the amended claim: each mutating call answers the
scheduled error in the sample worlds. -/
theorem cart_mutation_errors_propagate_witness :
    (Cart.addToCart uuidGen 7 2 Witems).1 = .error "items" ∧
    (Cart.updateCartItemQuantity 3 5 Whdr).1 = .error "hdr" ∧
    (Cart.removeFromCart 3 Whdr).1 = .error "hdr" ∧
    (Cart.clearCart uuidGen Whdr).1 = .error "hdr" ∧
    Cart.addToCart uuidGen 7 2 Whdr =
      Cart.insertCartRow "sess" 7 2 { Whdr with errs := [] } := by
  have H1 := cart_mutation_errors_propagate uuidGen Witems "items" []
    "sess" 7 3 2 rfl (by decide)
  have H2 := cart_mutation_errors_propagate uuidGen Whdr "hdr" []
    "sess" 7 3 5 rfl (by decide)
  have H3 := cart_mutation_errors_propagate uuidGen Whdr "hdr" []
    "sess" 7 3 2 rfl (by decide)
  exact ⟨H1.1 rfl, H2.2.1 rfl, H2.2.2.1 rfl, H2.2.2.2.1 rfl,
    H3.2.2.2.2 rfl⟩

end ShopHub

namespace ShopHub

/-- The quantity update touches neither session_id nor product_id, so
it commutes with the (session, product) filter. -/
lemma filter_map_updRow (l : List CartRow) (rid : Nat) (q : Int)
    (s : String) (pid : Nat) :
    (l.map (Cart.updRow rid q)).filter (Cart.matchSP s pid) =
      (l.filter (Cart.matchSP s pid)).map (Cart.updRow rid q) := by
  induction l with
  | nil => simp
  | cons r l ih =>
    have hm : Cart.matchSP s pid (Cart.updRow rid q r) =
        Cart.matchSP s pid r := by
      simp only [Cart.updRow]
      split <;> rfl
    by_cases hr : Cart.matchSP s pid r = true
    · simp [List.filter_cons, hm, hr, ih]
    · simp [List.filter_cons, hm, hr, ih]

/-- One addToCart call with no existing (session, product) row and a
succeeding store: a fresh row with the given quantity is inserted and
becomes the unique row of the pair. -/
lemma addToCart_insert_case (uuids : Nat → String) (pid : Nat) (q : Int)
    (s : String) (w : World) (h : w.errs = [])
    (hls : w.client.localStorage = some s) (hs : s ≠ "")
    (hempty : w.store.cart_items.filter (Cart.matchSP s pid) = []) :
    (Cart.addToCart uuids pid q w).1 = .ok () ∧
    ((Cart.addToCart uuids pid q w).2).errs = [] ∧
    ((Cart.addToCart uuids pid q w).2).client = w.client ∧
    ((Cart.addToCart uuids pid q w).2).store.cart_items.filter
        (Cart.matchSP s pid) =
      [{ id := w.store.nextId, session_id := s, product_id := pid,
         quantity := q, created_at := w.store.clock }] := by
  have hsid := cartGetSessionId_stored uuids w.client s hls hs
  refine ⟨?_, ?_, ?_, ?_⟩ <;>
    simp [Cart.addToCart, hsid, Cart.selectExistingItem, World.stepErr, h,
      hempty, Cart.insertCartRow, List.filter_append, Cart.matchSP]

/-- One addToCart call with exactly one existing (session, product)
row and a succeeding store: the row's quantity is accumulated and it
stays the unique row of the pair. -/
lemma addToCart_update_case (uuids : Nat → String) (pid : Nat) (q : Int)
    (s : String) (w : World) (h : w.errs = [])
    (hls : w.client.localStorage = some s) (hs : s ≠ "") (r : CartRow)
    (hone : w.store.cart_items.filter (Cart.matchSP s pid) = [r]) :
    (Cart.addToCart uuids pid q w).1 = .ok () ∧
    ((Cart.addToCart uuids pid q w).2).errs = [] ∧
    ((Cart.addToCart uuids pid q w).2).client = w.client ∧
    ((Cart.addToCart uuids pid q w).2).store.cart_items.filter
        (Cart.matchSP s pid) =
      [{ r with quantity := r.quantity + q }] := by
  have hsid := cartGetSessionId_stored uuids w.client s hls hs
  refine ⟨?_, ?_, ?_, ?_⟩ <;>
    simp [Cart.addToCart, hsid, Cart.selectExistingItem, World.stepErr, h,
      hone, Cart.updateQuantityById, filter_map_updRow, Cart.updRow]

/-- Running a whole list of addToCart calls starting from exactly one
row of the pair accumulates the sum of the quantities onto that row. -/
lemma addAll_from_one (uuids : Nat → String) (pid : Nat) (s : String)
    (hs : s ≠ "") :
    ∀ (qs : List Int) (w : World) (r : CartRow), w.errs = [] →
      w.client.localStorage = some s →
      w.store.cart_items.filter (Cart.matchSP s pid) = [r] →
      (Cart.addAll uuids pid qs w).errs = [] ∧
      (Cart.addAll uuids pid qs w).client = w.client ∧
      (Cart.addAll uuids pid qs w).store.cart_items.filter
          (Cart.matchSP s pid) =
        [{ r with quantity := r.quantity + qs.sum }] := by
  intro qs
  induction qs with
  | nil =>
    intro w r h hls hone
    exact ⟨h, rfl, by simpa [Cart.addAll] using hone⟩
  | cons q qs ih =>
    intro w r h hls hone
    obtain ⟨_, herrs, hclient, hfilter⟩ :=
      addToCart_update_case uuids pid q s w h hls hs r hone
    obtain ⟨e1, e2, e3⟩ := ih ((Cart.addToCart uuids pid q w).2)
      { r with quantity := r.quantity + q } herrs
      (by rw [hclient]; exact hls) hfilter
    have unf : Cart.addAll uuids pid (q :: qs) w =
        Cart.addAll uuids pid qs ((Cart.addToCart uuids pid q w).2) := rfl
    rw [unf]
    refine ⟨e1, by rw [e2, hclient], ?_⟩
    rw [e3]
    simp [add_assoc]

/-- C2: any nonempty serial sequence of addToCart calls for one
product from one session, with every store call succeeding and no
preexisting row of the pair, leaves exactly one cart row for
(session, product), whose quantity is the sum of all passed
quantities. -/
theorem addToCart_accumulates_single_row (uuids : Nat → String)
    (pid : Nat) (s : String) (qs : List Int) (w : World) (hqs : qs ≠ [])
    (h : w.errs = []) (hls : w.client.localStorage = some s)
    (hs : s ≠ "")
    (hempty : w.store.cart_items.filter (Cart.matchSP s pid) = []) :
    (Cart.addAll uuids pid qs w).store.cart_items.filter
        (Cart.matchSP s pid) =
      [{ id := w.store.nextId, session_id := s, product_id := pid,
         quantity := qs.sum, created_at := w.store.clock }] := by
  obtain ⟨q, qs', rfl⟩ := List.exists_cons_of_ne_nil hqs
  obtain ⟨_, herrs, hclient, hfilter⟩ :=
    addToCart_insert_case uuids pid q s w h hls hs hempty
  obtain ⟨_, _, e3⟩ := addAll_from_one uuids pid s hs qs'
    ((Cart.addToCart uuids pid q w).2)
    { id := w.store.nextId, session_id := s, product_id := pid,
      quantity := q, created_at := w.store.clock } herrs
    (by rw [hclient]; exact hls) hfilter
  have unf : Cart.addAll uuids pid (q :: qs') w =
      Cart.addAll uuids pid qs' ((Cart.addToCart uuids pid q w).2) := rfl
  rw [unf, e3]
  simp

/-- The sample world with an empty cart. -/
def Wempty : World :=
  { client := sampleClient, store := { sampleStore with cart_items := [] },
    errs := [] }

/-- C2 witness: adding product 7 with quantities 3 then 2 to an empty
cart leaves exactly one row of quantity 5. -/
theorem addToCart_accumulates_single_row_witness :
    (Cart.addAll uuidGen 7 [3, 2] Wempty).store.cart_items.filter
        (Cart.matchSP "sess" 7) =
      [{ id := 10, session_id := "sess", product_id := 7, quantity := 5,
         created_at := 0 }] := by
  have H := addToCart_accumulates_single_row uuidGen 7 "sess" [3, 2]
    Wempty (by decide) rfl rfl (by decide) (by decide)
  simpa using H

end ShopHub
